import Mathlib

/-!
Verification of the TTK_StatTestIA dashboard (src/TTK_StatTestIA/app.py).

The file shallowly embeds the decision logic of the five Streamlit screens:
the model loader (lines 59-72), the import screen (lines 103-110), the
visualisation screen (lines 115-160), the nonparametric test screen
(lines 165-202) and the prediction screen (lines 207-251).

Modelling conventions:
  - A pandas DataFrame is a list of named numeric columns (the claims only
    involve numeric data).
  - Python floats are idealised as exact rationals; the Pearson coefficient
    is real-valued because its definition takes a square root.
  - A Streamlit render cycle is a pure function from the screen inputs to a
    description of what is rendered; st.stop is a dedicated constructor.
  - External library calls that can raise (pandas parsing, scipy tests) are
    passed in as `Except`-valued oracles: `Except.error e` stands for the
    call raising an exception with message `e`.
  - The fixed French interpretation sentences are represented by the
    constructors of `Interpretation`, each carrying the column names that
    the source interpolates into the sentence; numeric values that the
    source also interpolates (medians, counts) are elided because no claim
    depends on them.
-/

namespace TTKStatTestIA

/-- A dataset held in the session store: named columns of numeric values
(app.py keeps it as a pandas DataFrame in st.session_state). -/
abbrev Dataset := List (String × List ℚ)

/-- Column access `df[c]` by name (empty when the column is absent, a case
no claim exercises). -/
def getColumn (df : Dataset) (c : String) : List ℚ :=
  (df.lookup c).getD []

/-! ## Import screen (app.py lines 103-110)

`st.session_state` starts without the dataset slot; `none` is the absent
sentinel.  The parse (`pd.read_csv` / `pd.read_excel`, line 107) happens
before the assignment to `st.session_state` (line 108), so an exception
raised by the parser propagates (Streamlit surfaces it on screen) with the
store untouched. -/

/-- What the import screen shows for one render cycle. -/
inductive ImportOutcome
  | noFile
  | parseFailure (msg : String)
  | imported
deriving DecidableEq

/-- One render cycle of the import screen: `upload` is `none` when no file
was chosen, otherwise the result of the delegated parse.  Returns the new
session store contents and the outcome shown to the user. -/
def importScreen (store : Option Dataset)
    (upload : Option (Except String Dataset)) :
    Option Dataset × ImportOutcome :=
  match upload with
  | none => (store, .noFile)
  | some (.error e) => (store, .parseFailure e)
  | some (.ok df) => (some df, .imported)

/-! ## Model loader (app.py lines 59-72) -/

/-- Fixed artifact path (app.py line 59). -/
def MODEL_FILE : String := "model.pkl"

/-- Abstract stand-in for the pickled sklearn classifier object; the
dashboard never inspects it beyond calling predict_proba. -/
structure ModelObj where
  tag : Unit
deriving DecidableEq

/-- Abstract stand-in for a fitted LabelEncoder: the dashboard only uses
its learned class list. -/
structure LabelEncoderObj where
  classes : List String
deriving DecidableEq

/-- A Python numeric value as passed to widget calls, tagged with its
runtime type: Streamlit distinguishes int from float arguments. -/
inductive PyNum
  | int (i : ℤ)
  | float (q : ℚ)
deriving DecidableEq

/-- A per-feature stats record from the artifact, a Python dict whose keys
may each be absent (app.py reads every key with .get and a default); the
numeric entries keep their Python runtime type tag. -/
structure StatsInfo where
  type : Option String := none
  classes : Option (List String) := none
  min : Option PyNum := none
  max : Option PyNum := none
  mean : Option PyNum := none
deriving DecidableEq

/-- A well-formed deserialized payload: the keys app.py reads at lines
62-65.  `encoders` defaults to empty, mirroring payload.get with default. -/
structure ModelPayload where
  model : ModelObj
  encoders : List (String × LabelEncoderObj) := []
  features : List String
  stats : List (String × StatsInfo)

/-- The module-level bindings set by the try/except at lines 60-72. -/
structure LoaderState where
  model_loaded : Bool
  model : Option ModelObj
  encoders : List (String × LabelEncoderObj)
  FEATURES : List String
  STATS : List (String × StatsInfo)
deriving DecidableEq

/-- The load attempt: `none` stands for joblib.load raising
FileNotFoundError (the only exception the source catches; any other
deserialization failure propagates and is outside this model). -/
def loadModel (artifact : Option ModelPayload) : LoaderState :=
  match artifact with
  | some payload =>
      { model_loaded := true
        model := some payload.model
        encoders := payload.encoders
        FEATURES := payload.features
        STATS := payload.stats }
  | none =>
      { model_loaded := false
        model := none
        encoders := []
        FEATURES := []
        STATS := [] }

/-! ## Visualisation screen (app.py lines 115-160) -/

/-- The four entries of the chart-type selectbox (line 124). -/
inductive ChartType
  | histogramme
  | boiteAMoustaches
  | nuageDePoints
  | diagrammeCirculaire
deriving DecidableEq

/-- The plotly figure built per branch, by kind and the columns it plots. -/
inductive Chart
  | histogram (x : String) (nbins : ℕ)
  | box (x : String)
  | scatter (x y : String)
  | pie (x : String)
deriving DecidableEq

/-- The fixed interpretation sentences of lines 130, 136, 145, 147, 149 and
157, identified by branch and the interpolated column names (interpolated
numeric values elided). -/
inductive Interpretation
  | histogramme (x : String)
  | boite (x : String)
  | corrPositive (x y : String)
  | corrNegative (x y : String)
  | corrInconclusive (x y : String)
  | circulaire (x : String)
deriving DecidableEq

/-- Arithmetic mean of a column. -/
def mean (xs : List ℚ) : ℚ := xs.sum / xs.length

/-- Deviations of a column from its own mean. -/
def centered (xs : List ℚ) : List ℚ := xs.map (fun v => v - mean xs)

/-- Sum of products of paired deviations (the Pearson numerator). -/
def covSum (xs ys : List ℚ) : ℚ :=
  (List.zipWith (fun a b => a * b) (centered xs) (centered ys)).sum

/-- Sum of squared deviations of one column. -/
def sqDevSum (xs : List ℚ) : ℚ :=
  ((centered xs).map (fun d => d * d)).sum

/-- Pearson correlation as computed by df[xcol].corr(df[ycol]) at line 143:
sum of products of deviations over the square root of the product of the
sums of squared deviations. -/
noncomputable def pearson (xs ys : List ℚ) : ℝ :=
  ((covSum xs ys : ℚ) : ℝ) / Real.sqrt ((sqDevSum xs * sqDevSum ys : ℚ) : ℝ)

/-- The correlation classification of lines 144-149: strictly above 0.5 is
the positive sentence, strictly below -0.5 the negative sentence, anything
else the inconclusive sentence. -/
noncomputable def scatterInterp (x y : String) (r : ℝ) : Interpretation :=
  if r > 0.5 then .corrPositive x y
  else if r < -0.5 then .corrNegative x y
  else .corrInconclusive x y

/-- What one render cycle of the visualisation screen produces. -/
inductive RenderResult
  | noData (warning : String)
  | halted (warning : String)
  | rendered (fig : Chart) (interp : Interpretation)

/-- One render cycle of the visualisation screen: the session store, the X
selectbox, the Y selectbox (whose first entry is the sentinel "Aucune",
line 123) and the chart type.  The scatter branch guards on the sentinel
and st.stops (lines 139-141); the other branches never read Y. -/
noncomputable def visualisations (store : Option Dataset) (xcol ycol : String)
    (chart_type : ChartType) : RenderResult :=
  match store with
  | none => .noData "⚠️ Importez d’abord un fichier de données."
  | some df =>
    match chart_type with
    | .histogramme =>
        .rendered (.histogram xcol 20) (.histogramme xcol)
    | .boiteAMoustaches =>
        .rendered (.box xcol) (.boite xcol)
    | .nuageDePoints =>
        if ycol = "Aucune" then
          .halted "Veuillez choisir une variable Y pour un nuage de points."
        else
          .rendered (.scatter xcol ycol)
            (scatterInterp xcol ycol
              (pearson (getColumn df xcol) (getColumn df ycol)))
    | .diagrammeCirculaire =>
        .rendered (.pie xcol) (.circulaire xcol)

/-! ## Test screen (app.py lines 165-202) -/

/-- The four entries of the test selectbox (line 179). -/
inductive TestKind
  | mannWhitney
  | wilcoxon
  | kruskalWallis
  | spearman
deriving DecidableEq

/-- What the button handler shows: the significant verdict (st.info, line
198), the not-significant verdict (st.warning, line 200), or the caught
exception message (st.error, line 202).  The verdicts carry the statistic
and p-value echoed by the st.success banner of line 196. -/
inductive TestMessage
  | significatif (t : TestKind) (stat p : ℚ)
  | nonSignificatif (t : TestKind) (stat p : ℚ)
  | erreur (msg : String)
deriving DecidableEq

/-- Oracle for the scipy routines of lines 184-193: by test kind and the
two selected columns, either an exception message or a (statistic, p-value)
pair. -/
abbrev Routines := TestKind → List ℚ → List ℚ → Except String (ℚ × ℚ)

/-- The try/except of lines 182-202: dispatch on the selected test, then
the fixed 0.05 decision rule of lines 197-200; any exception from the
routine is caught and rendered as the error message of line 202. -/
def runTest (df : Dataset) (var1 var2 : String) (test : TestKind)
    (routines : Routines) : TestMessage :=
  match routines test (getColumn df var1) (getColumn df var2) with
  | .error e => .erreur ("Erreur : " ++ e)
  | .ok (stat, p) =>
      if p < 0.05 then .significatif test stat p
      else .nonSignificatif test stat p

/-! ## Prediction screen (app.py lines 207-251) -/

/-- The input widgets of the feature loop (lines 216-222). -/
inductive Widget
  | selectbox (label : String) (options : List String)
  | numberInput (label : String) (min_value max_value value : PyNum)
deriving DecidableEq

/-- The st.number_input call of line 222 with its argument validation:
Streamlit requires min_value, max_value and value to share one numeric
runtime type and raises StreamlitAPIException otherwise (modelled as the
error case; the message is the exception's headline). -/
def st_number_input (label : String) (min_value max_value value : PyNum) :
    Except String Widget :=
  match min_value, max_value, value with
  | .int a, .int b, .int v =>
      .ok (.numberInput label (.int a) (.int b) (.int v))
  | .float a, .float b, .float v =>
      .ok (.numberInput label (.float a) (.float b) (.float v))
  | _, _, _ =>
      .error "All numerical arguments must be of the same type."

/-- One iteration of the feature loop of lines 216-222: STATS.get(feat, the
empty dict), a selectbox over the known classes for categorical features,
otherwise st.number_input bounded by .get("min", 0) / .get("max", 1) with
default .get("mean", 0.5) — the fallbacks 0 and 1 are Python int literals
while 0.5 is a float literal. -/
def featureWidget (feat : String) (STATS : List (String × StatsInfo)) :
    Except String Widget :=
  let info := (STATS.lookup feat).getD {}
  if info.type = some "categorical" then
    .ok (.selectbox feat (info.classes.getD []))
  else
    st_number_input feat (info.min.getD (.int 0)) (info.max.getD (.int 1))
      (info.mean.getD (.float 0.5))

/-- The feature loop itself: widgets are built one feature at a time, and
an exception from any widget call propagates, because the loop sits outside
the try/except of lines 225-251. -/
def buildWidgets (feats : List String) (STATS : List (String × StatsInfo)) :
    Except String (List Widget) :=
  match feats with
  | [] => .ok []
  | feat :: rest =>
      match featureWidget feat STATS with
      | .error e => .error e
      | .ok w =>
          match buildWidgets rest STATS with
          | .error e => .error e
          | .ok ws => .ok (w :: ws)

/-- What the prediction screen produces before the predict button: the
st.error + st.stop of lines 210-212, an uncaught widget-loop exception
crashing the render, or the rendered input form. -/
inductive PredictRender
  | halted (msg : String)
  | crashed (msg : String)
  | form (widgets : List Widget)
deriving DecidableEq

/-- The guard of lines 210-212 and the feature-input loop of lines 214-222:
when the bundle is not loaded, a fixed instructional error naming the
artifact file is shown and st.stop halts the cycle; otherwise one input
widget per feature of FEATURES is built, any widget exception crashing the
render uncaught. -/
def predictionScreen (ls : LoaderState) : PredictRender :=
  if ls.model_loaded = false then
    .halted ("Le fichier " ++ MODEL_FILE ++
      " est introuvable. Exécutez d’abord train_model.py pour générer le modèle.")
  else
    match buildWidgets ls.FEATURES ls.STATS with
    | .error e => .crashed e
    | .ok ws => .form ws

/-- The three-band risk verdict of lines 243-248 over the probability
percentage: st.success below 30, st.warning below 70, st.error otherwise. -/
inductive Risk
  | faible
  | modere
  | eleve
deriving DecidableEq

/-- The banding branch of lines 243-248. -/
def riskBand (prob : ℚ) : Risk :=
  if prob < 30 then .faible
  else if prob < 70 then .modere
  else .eleve

/-! ## Claims -/

/-- C1: the scatter interpretation is a total function of the Pearson
coefficient r alone: strictly above 0.5 the positive-relation sentence is
produced, strictly below -0.5 the negative-relation sentence, and otherwise
— the boundary values 0.5 and -0.5 included, by strict inequality — the
inconclusive sentence. -/
theorem C1_scatter_classification (x y : String) (r : ℝ) :
    (r > 0.5 → scatterInterp x y r = Interpretation.corrPositive x y) ∧
    (r < -0.5 → scatterInterp x y r = Interpretation.corrNegative x y) ∧
    (¬ r > 0.5 → ¬ r < -0.5 →
      scatterInterp x y r = Interpretation.corrInconclusive x y) ∧
    scatterInterp x y (0.5 : ℝ) = Interpretation.corrInconclusive x y ∧
    scatterInterp x y (-0.5 : ℝ) = Interpretation.corrInconclusive x y := by
  unfold scatterInterp
  refine ⟨?_, ?_, ?_, ?_, ?_⟩
  · intro h; simp [h]
  · intro h
    have h2 : ¬ r > 0.5 := by linarith
    simp [h, h2]
  · intro h1 h2; simp [h1, h2]
  · norm_num
  · norm_num

/-- Witness for C1 at the concrete coefficient r = 1. -/
theorem C1_scatter_classification_witness :
    scatterInterp "Age" "Glucose" 1 =
      Interpretation.corrPositive "Age" "Glucose" :=
  (C1_scatter_classification "Age" "Glucose" 1).1 (by norm_num)

/-- C2: the risk band is a total function of the probability percentage p in
[0, 100]: below 30 the low-risk verdict, from 30 up to but excluding 70 the
moderate-risk verdict, from 70 on the high-risk verdict; the boundaries 30
and 70 belong to the upper band. -/
theorem C2_risk_banding (p : ℚ) (h0 : 0 ≤ p) (h100 : p ≤ 100) :
    (riskBand p = Risk.faible ↔ p < 30) ∧
    (riskBand p = Risk.modere ↔ 30 ≤ p ∧ p < 70) ∧
    (riskBand p = Risk.eleve ↔ 70 ≤ p) := by
  unfold riskBand
  split_ifs with h1 h2 <;> refine ⟨?_, ?_, ?_⟩ <;> simp_all <;> linarith

/-- Witness for C2 at the two boundary probabilities. -/
theorem C2_risk_banding_witness :
    riskBand 30 = Risk.modere ∧ riskBand 70 = Risk.eleve :=
  ⟨(C2_risk_banding 30 (by norm_num) (by norm_num)).2.1.mpr (by norm_num),
   (C2_risk_banding 70 (by norm_num) (by norm_num)).2.2.mpr (by norm_num)⟩

/-- C3: for every test selection and every (statistic, p-value) pair the
routine returns, the significant verdict is reported iff p < 0.05, and the
not-significant verdict otherwise (p = 0.05 is not significant). -/
theorem C3_significance_threshold (df : Dataset) (var1 var2 : String)
    (t : TestKind) (routines : Routines) (stat p : ℚ)
    (h : routines t (getColumn df var1) (getColumn df var2) = .ok (stat, p)) :
    (runTest df var1 var2 t routines = TestMessage.significatif t stat p ↔
      p < 0.05) ∧
    (runTest df var1 var2 t routines = TestMessage.nonSignificatif t stat p ↔
      ¬ p < 0.05) := by
  unfold runTest
  rw [h]
  by_cases hp : p < 0.05 <;> simp [hp]

/-- Witness for C3 at the boundary p-value 0.05, which is not significant. -/
theorem C3_significance_threshold_witness :
    runTest [] "A" "B" TestKind.wilcoxon (fun _ _ _ => .ok (1, 0.05)) =
      TestMessage.nonSignificatif TestKind.wilcoxon 1 0.05 :=
  ((C3_significance_threshold [] "A" "B" TestKind.wilcoxon
      (fun _ _ _ => .ok (1, 0.05)) 1 0.05 rfl).2).mpr (by norm_num)

/-- C4: a parse failure during import is surfaced to the user and leaves the
session store unchanged (whatever get() returned before, dataset or absent
sentinel, it still returns); only a successful parse updates the store. -/
theorem C4_import_preserves_store (store : Option Dataset) (e : String)
    (df : Dataset) :
    importScreen store (some (.error e)) = (store, ImportOutcome.parseFailure e) ∧
    importScreen store (some (.ok df)) = (some df, ImportOutcome.imported) ∧
    importScreen store none = (store, ImportOutcome.noFile) :=
  ⟨rfl, rfl, rfl⟩

/-- C5: a missing artifact gives loaded = false with model, encoders,
FEATURES and STATS all empty, without raising (loadModel is total); a
present well-formed artifact gives loaded = true and FEATURES exactly the
recorded feature list. -/
theorem C5_model_loader (payload : ModelPayload) :
    (loadModel none).model_loaded = false ∧
    (loadModel none).model = none ∧
    (loadModel none).encoders = [] ∧
    (loadModel none).FEATURES = [] ∧
    (loadModel none).STATS = [] ∧
    (loadModel (some payload)).model_loaded = true ∧
    (loadModel (some payload)).FEATURES = payload.features :=
  ⟨rfl, rfl, rfl, rfl, rfl, rfl, rfl⟩

/-- C6: with a dataset present, the scatter branch halts the render with a
warning (no chart produced) exactly when Y is the unselected sentinel, and
renders the scatter chart otherwise; the histogram, box-plot and pie
branches always render a chart, never halting for a missing Y. -/
theorem C6_scatter_halts_iff_no_y (df : Dataset) (xcol ycol : String) :
    (ycol = "Aucune" →
      visualisations (some df) xcol ycol ChartType.nuageDePoints =
        RenderResult.halted
          "Veuillez choisir une variable Y pour un nuage de points.") ∧
    (ycol ≠ "Aucune" →
      visualisations (some df) xcol ycol ChartType.nuageDePoints =
        RenderResult.rendered (Chart.scatter xcol ycol)
          (scatterInterp xcol ycol
            (pearson (getColumn df xcol) (getColumn df ycol)))) ∧
    visualisations (some df) xcol ycol ChartType.histogramme =
      RenderResult.rendered (Chart.histogram xcol 20)
        (Interpretation.histogramme xcol) ∧
    visualisations (some df) xcol ycol ChartType.boiteAMoustaches =
      RenderResult.rendered (Chart.box xcol) (Interpretation.boite xcol) ∧
    visualisations (some df) xcol ycol ChartType.diagrammeCirculaire =
      RenderResult.rendered (Chart.pie xcol) (Interpretation.circulaire xcol) := by
  refine ⟨?_, ?_, rfl, rfl, rfl⟩
  · intro h; simp [visualisations, h]
  · intro h; simp [visualisations, h]

/-- Witness for C6 at a concrete dataset, with Y unselected and selected. -/
theorem C6_scatter_halts_iff_no_y_witness :
    visualisations (some [("Age", [1])]) "Age" "Aucune"
        ChartType.nuageDePoints =
      RenderResult.halted
        "Veuillez choisir une variable Y pour un nuage de points." ∧
    visualisations (some [("Age", [1])]) "Age" "Age"
        ChartType.nuageDePoints =
      RenderResult.rendered (Chart.scatter "Age" "Age")
        (scatterInterp "Age" "Age"
          (pearson (getColumn [("Age", [1])] "Age")
            (getColumn [("Age", [1])] "Age"))) :=
  ⟨(C6_scatter_halts_iff_no_y [("Age", [1])] "Age" "Aucune").1 rfl,
   (C6_scatter_halts_iff_no_y [("Age", [1])] "Age" "Age").2.1 (by decide)⟩

/-- C7: an exception raised by the invoked statistical routine is caught at
the point of invocation and its message surfaced as the error message of
the screen; the handler returns a message instead of crashing, so the
screen stays interactive for retry. -/
theorem C7_test_exception_surfaced (df : Dataset) (var1 var2 : String)
    (t : TestKind) (routines : Routines) (e : String)
    (h : routines t (getColumn df var1) (getColumn df var2) = .error e) :
    runTest df var1 var2 t routines = TestMessage.erreur ("Erreur : " ++ e) := by
  unfold runTest
  rw [h]

/-- Witness for C7 with a routine that raises a Wilcoxon length error. -/
theorem C7_test_exception_surfaced_witness :
    runTest [] "A" "B" TestKind.wilcoxon
        (fun _ _ _ => .error "x and y must have the same length.") =
      TestMessage.erreur ("Erreur : " ++ "x and y must have the same length.") :=
  C7_test_exception_surfaced [] "A" "B" TestKind.wilcoxon
    (fun _ _ _ => .error "x and y must have the same length.")
    "x and y must have the same length." rfl

/-- C8: whenever the bundle is not loaded, the prediction screen shows the
fixed instructional error naming the artifact file and halts the cycle, so
no input widget and no prediction is produced in that state. -/
theorem C8_predict_guard (ls : LoaderState) (h : ls.model_loaded = false) :
    predictionScreen ls =
      PredictRender.halted ("Le fichier " ++ MODEL_FILE ++
        " est introuvable. Exécutez d’abord train_model.py pour générer le modèle.") := by
  simp [predictionScreen, h]

/-- Witness for C8 at the loader state of a missing artifact. -/
theorem C8_predict_guard_witness :
    predictionScreen (loadModel none) =
      PredictRender.halted ("Le fichier " ++ MODEL_FILE ++
        " est introuvable. Exécutez d’abord train_model.py pour générer le modèle.") :=
  C8_predict_guard (loadModel none) rfl

/-- The end-to-end demo dataset with exactly linear columns. -/
def demoDf : Dataset :=
  [("Age", [25, 30, 35, 40]), ("Glucose", [85, 95, 105, 115])]

/-- C9: on the demo dataset the Pearson correlation between Age and Glucose
is exactly 1, and the scatter render therefore produces the
positive-relation sentence. -/
theorem C9_demo_scatter_positive :
    pearson (getColumn demoDf "Age") (getColumn demoDf "Glucose") = 1 ∧
    visualisations (some demoDf) "Age" "Glucose" ChartType.nuageDePoints =
      RenderResult.rendered (Chart.scatter "Age" "Glucose")
        (Interpretation.corrPositive "Age" "Glucose") := by
  have hx : getColumn demoDf "Age" = [25, 30, 35, 40] := by rfl
  have hy : getColumn demoDf "Glucose" = [85, 95, 105, 115] := by rfl
  have hcov : covSum [25, 30, 35, 40] [85, 95, 105, 115] = 250 := by
    norm_num [covSum, centered, mean, List.zipWith, List.sum, List.map,
      List.foldr]
  have hsq : sqDevSum [25, 30, 35, 40] * sqDevSum [85, 95, 105, 115] = 62500 := by
    norm_num [sqDevSum, centered, mean, List.sum, List.map, List.foldr]
  have hr : pearson [25, 30, 35, 40] [85, 95, 105, 115] = 1 := by
    unfold pearson
    rw [hcov, hsq]
    have h62500 : ((62500 : ℚ) : ℝ) = (250 : ℝ) ^ 2 := by norm_num
    rw [h62500, Real.sqrt_sq (by norm_num : (0 : ℝ) ≤ 250)]
    norm_num
  have hne : ("Glucose" : String) ≠ "Aucune" := by decide
  refine ⟨by rw [hx, hy]; exact hr, ?_⟩
  simp only [visualisations]
  rw [if_neg hne, hx, hy, hr]
  unfold scatterInterp
  rw [if_pos (by norm_num : (1 : ℝ) > 0.5)]

/-- C10: the fallback path the claim describes does not render — for a
feature absent from STATS the loop calls st.number_input(feat, 0, 1, 0.5),
whose int bounds mixed with the float default make Streamlit raise
StreamlitAPIException outside any try/except, so the prediction screen
crashes with no widget instead of rendering the fallback numeric input. -/
theorem C10_fallback_type_mix_crash :
    featureWidget "BMI" [] =
      Except.error "All numerical arguments must be of the same type." ∧
    predictionScreen (loadModel (some
        { model := { tag := () }, features := ["BMI"], stats := [] })) =
      PredictRender.crashed
        "All numerical arguments must be of the same type." :=
  ⟨rfl, rfl⟩

end TTKStatTestIA
